import Mathlib

/-!
Shallow embedding of the GSC MCP server (`main.py` and `env_helper.py`).

Python/JSON values are modelled by `JVal`; Python dicts by ordered
association lists; exceptions by `Except`.  Each definition mirrors one
function of `main.py`; doc comments name the function embedded.
-/

/-- A Python/JSON value as handled by `main.py`: `None`, booleans, integers,
strings, lists and (ordered) dicts with string keys. -/
inductive JVal where
  | null : JVal
  | bool (b : Bool) : JVal
  | num (n : Int) : JVal
  | str (s : String) : JVal
  | arr (xs : List JVal) : JVal
  | obj (fs : List (String × JVal)) : JVal

mutual
/-- Structural equality of values, modelling Python `==` on JSON data
(the code only ever compares strings: tool and method names). -/
def JVal.beq : JVal → JVal → Bool
  | JVal.null, JVal.null => true
  | JVal.bool a, JVal.bool b => a == b
  | JVal.num a, JVal.num b => a == b
  | JVal.str a, JVal.str b => a == b
  | JVal.arr a, JVal.arr b => jvalListBeq a b
  | JVal.obj a, JVal.obj b => jvalFieldsBeq a b
  | _, _ => false

/-- Elementwise equality of two Python lists of values. -/
def jvalListBeq : List JVal → List JVal → Bool
  | [], [] => true
  | x :: xs, y :: ys => JVal.beq x y && jvalListBeq xs ys
  | _, _ => false

/-- Pairwise equality of two dicts as ordered key/value lists. -/
def jvalFieldsBeq : List (String × JVal) → List (String × JVal) → Bool
  | [], [] => true
  | (k, v) :: fs, (l, w) :: gs => k == l && JVal.beq v w && jvalFieldsBeq fs gs
  | _, _ => false
end

instance : BEq JVal := ⟨JVal.beq⟩

/-- A Python dict with string keys, in insertion order. -/
abbrev Dict := List (String × JVal)

/-- Python one-argument `d.get(k)`: `None` when the key is absent. -/
def pyGet (d : Dict) (k : String) : JVal :=
  (d.lookup k).getD JVal.null

/-- Python two-argument `d.get(k, dflt)`. -/
def pyGetD (d : Dict) (k : String) (dflt : JVal) : JVal :=
  (d.lookup k).getD dflt

/-- Python truthiness of a `JVal` (`if not site_url`, `if error`, ...). -/
def pyTruthy : JVal → Bool
  | JVal.null => false
  | JVal.bool b => b
  | JVal.num n => n != 0
  | JVal.str s => s != ""
  | JVal.arr xs => !xs.isEmpty
  | JVal.obj fs => !fs.isEmpty

/-- Name of the Python type of a value, as it appears in runtime error
messages such as attribute errors. -/
def pyTypeName : JVal → String
  | JVal.null => "NoneType"
  | JVal.bool _ => "bool"
  | JVal.num _ => "int"
  | JVal.str _ => "str"
  | JVal.arr _ => "list"
  | JVal.obj _ => "dict"

mutual
/-- Python `repr` of a value (used by f-string interpolation of containers). -/
def pyRepr : JVal → String
  | JVal.null => "None"
  | JVal.bool true => "True"
  | JVal.bool false => "False"
  | JVal.num n => toString n
  | JVal.str s => "\x27" ++ s ++ "\x27"
  | JVal.arr xs => "[" ++ String.intercalate ", " (pyReprList xs) ++ "]"
  | JVal.obj fs => "\x7b" ++ String.intercalate ", " (pyReprFields fs) ++ "\x7d"

/-- Python `repr` of each element of a list. -/
def pyReprList : List JVal → List String
  | [] => []
  | x :: xs => pyRepr x :: pyReprList xs

/-- Python `repr` of each key/value pair of a dict. -/
def pyReprFields : List (String × JVal) → List String
  | [] => []
  | (k, v) :: fs => ("\x27" ++ k ++ "\x27: " ++ pyRepr v) :: pyReprFields fs
end

/-- Python `str` of a value, as produced by f-string interpolation
(`f"\x7btool_name\x7d"`, `f"\x7bstart_date\x7d to \x7bend_date\x7d"`). -/
def pyStr : JVal → String
  | JVal.str s => s
  | v => pyRepr v

/-- JSON escaping of one character, as `json.dumps` does. -/
def jsonEscapeChar (c : Char) : String :=
  if c = '"' then "\\\""
  else if c = '\\' then "\\\\"
  else if c = '\n' then "\\n"
  else if c = '\t' then "\\t"
  else if c = '\r' then "\\r"
  else String.singleton c

/-- JSON escaping of a string (`ensure_ascii=False`: non-ASCII kept as is). -/
def jsonEscape (s : String) : String :=
  String.join (s.data.map jsonEscapeChar)

/-- Indentation produced by `json.dumps(..., indent=2)` at nesting level `lvl`. -/
def jsonIndent (lvl : Nat) : String :=
  String.mk (List.replicate (2 * lvl) ' ')

mutual
/-- Model of `json.dumps(v, indent=2, ensure_ascii=False)` at nesting level `lvl`
(`main.py` line 190 serializes each tool result this way). -/
def jsonDumps : Nat → JVal → String
  | _, JVal.null => "null"
  | _, JVal.bool true => "true"
  | _, JVal.bool false => "false"
  | _, JVal.num n => toString n
  | _, JVal.str s => "\"" ++ jsonEscape s ++ "\""
  | _, JVal.arr [] => "[]"
  | lvl, JVal.arr (x :: xs) =>
      "[\n" ++ String.intercalate ",\n" (jsonDumpsList (lvl + 1) (x :: xs))
        ++ "\n" ++ jsonIndent lvl ++ "]"
  | _, JVal.obj [] => "\x7b\x7d"
  | lvl, JVal.obj (f :: fs) =>
      "\x7b\n" ++ String.intercalate ",\n" (jsonDumpsFields (lvl + 1) (f :: fs))
        ++ "\n" ++ jsonIndent lvl ++ "\x7d"

/-- Serialization of the elements of a JSON array, one line each. -/
def jsonDumpsList : Nat → List JVal → List String
  | _, [] => []
  | lvl, x :: xs => (jsonIndent lvl ++ jsonDumps lvl x) :: jsonDumpsList lvl xs

/-- Serialization of the fields of a JSON object, one line each. -/
def jsonDumpsFields : Nat → List (String × JVal) → List String
  | _, [] => []
  | lvl, (k, v) :: fs =>
      (jsonIndent lvl ++ "\"" ++ jsonEscape k ++ "\": " ++ jsonDumps lvl v)
        :: jsonDumpsFields lvl fs
end

/-- Whether the character list `hay` starts with `needle`. -/
def charsBeginWith : List Char → List Char → Bool
  | [], _ => true
  | _ :: _, [] => false
  | c :: cs, d :: ds => c == d && charsBeginWith cs ds

/-- Whether `needle` occurs contiguously anywhere in the character list. -/
def charsContain (needle : List Char) : List Char → Bool
  | [] => charsBeginWith needle []
  | d :: ds => charsBeginWith needle (d :: ds) || charsContain needle ds

/-- Whether the string `hay` mentions `needle` as a contiguous substring. -/
def strMentions (needle hay : String) : Bool :=
  charsContain needle.data hay.data

/-- The authenticated Search Console client built by
`env_helper.get_search_console_service`, seen by `main.py` through the three
call chains it uses.  Each operation either returns the decoded API response
or fails with an exception message (upstream failure). -/
structure Service where
  sites_list : Except String JVal
  sites_get : JVal → Except String JVal
  searchanalytics_query : JVal → JVal → Except String JVal

/-- Model of `v.get(k, dflt)` on an arbitrary value: attribute error when `v` is not a
dict, as Python raises at `arguments.get(...)` / `response.get(...)`. -/
def asMapping : JVal → Except String Dict
  | JVal.obj fs => Except.ok fs
  | v => Except.error
      ("\x27" ++ pyTypeName v ++ "\x27 object has no attribute \x27get\x27")

/-- Iterating a value as a Python list (`for site in ...`). -/
def asPyList : JVal → Except String (List JVal)
  | JVal.arr xs => Except.ok xs
  | v => Except.error ("\x27" ++ pyTypeName v ++ "\x27 object is not iterable")

/-- Model of `v.get(k, dflt)` where `v` itself is an arbitrary value. -/
def pyGetJ (v : JVal) (k : String) (dflt : JVal) : Except String JVal := do
  let m ← asMapping v
  pure (pyGetD m k dflt)

/-- Python subscript `v[k]`, raising `KeyError` / `TypeError` messages. -/
def pySubscript (v : JVal) (k : String) : Except String JVal :=
  match v with
  | JVal.obj fs =>
      match fs.lookup k with
      | some x => Except.ok x
      | none => Except.error ("\x27" ++ k ++ "\x27")
  | _ => Except.error
      ("\x27" ++ pyTypeName v ++ "\x27 object is not subscriptable")

/-- The static tool catalogue `MCPServerSSE.tools` (`main.py` lines 54-100). -/
def tools : JVal := JVal.arr
  [ JVal.obj
      [ ("name", JVal.str "list_properties"),
        ("description",
          JVal.str "Lista tutte le proprietà Google Search Console disponibili"),
        ("inputSchema", JVal.obj
          [ ("type", JVal.str "object"),
            ("properties", JVal.obj []),
            ("required", JVal.arr []) ]) ],
    JVal.obj
      [ ("name", JVal.str "get_search_analytics"),
        ("description",
          JVal.str "Ottieni dati di analisi di ricerca per un sito specifico"),
        ("inputSchema", JVal.obj
          [ ("type", JVal.str "object"),
            ("properties", JVal.obj
              [ ("site_url", JVal.obj
                  [ ("type", JVal.str "string"),
                    ("description",
                      JVal.str "URL del sito (es: https://www.example.com/)") ]),
                ("start_date", JVal.obj
                  [ ("type", JVal.str "string"),
                    ("description",
                      JVal.str "Data di inizio in formato YYYY-MM-DD") ]),
                ("end_date", JVal.obj
                  [ ("type", JVal.str "string"),
                    ("description",
                      JVal.str "Data di fine in formato YYYY-MM-DD") ]) ]),
            ("required", JVal.arr [JVal.str "site_url"]) ]) ],
    JVal.obj
      [ ("name", JVal.str "get_site_details"),
        ("description",
          JVal.str "Ottieni dettagli specifici per un sito in Google Search Console"),
        ("inputSchema", JVal.obj
          [ ("type", JVal.str "object"),
            ("properties", JVal.obj
              [ ("site_url", JVal.obj
                  [ ("type", JVal.str "string"),
                    ("description",
                      JVal.str "URL del sito (es: https://www.example.com/)") ]) ]),
            ("required", JVal.arr [JVal.str "site_url"]) ]) ] ]

/-- Embeds `MCPServerSSE.handle_initialize` (lines 116-131): fixed capabilities and
server info; the `params` argument is ignored by the source. -/
def handle_init : JVal := JVal.obj
  [ ("protocolVersion", JVal.str "2024-11-05"),
    ("capabilities", JVal.obj
      [ ("tools", JVal.obj [("listChanged", JVal.bool false)]),
        ("logging", JVal.obj []),
        ("experimental", JVal.obj []) ]),
    ("serverInfo", JVal.obj
      [ ("name", JVal.str "gsc-mcp-server"),
        ("version", JVal.str "1.0.0") ]) ]

/-- Embeds `MCPServerSSE.handle_tools_list` (lines 133-135). -/
def handle_tools_list : JVal := JVal.obj [("tools", tools)]

/-- The `content` envelope built at lines 186-193: the tool result serialized
with `json.dumps(result, indent=2, ensure_ascii=False)` inside one text block. -/
def toolContent (result : JVal) : JVal :=
  JVal.obj
    [ ("content", JVal.arr
        [ JVal.obj
            [ ("type", JVal.str "text"),
              ("text", JVal.str (jsonDumps 0 result)) ] ]) ]

/-- The `try` body of `MCPServerSSE.handle_tools_call` (lines 139-193):
extracts the tool name and arguments, dispatches on the tool name and
builds the `content` envelope; every failure is an exception message. -/
def tcBody (gsc : Option Service) (gsc_error : String) (params : JVal) :
    Except String JVal := do
  let pd ← asMapping params
  let tool_name := pyGet pd "name"
  let argumentsV := pyGetD pd "arguments" (JVal.obj [])
  match gsc with
  | none => Except.error ("GSC service non disponibile: " ++ gsc_error)
  | some svc =>
    let result ←
      if tool_name == JVal.str "list_properties" then do
        let sites ← svc.sites_list
        let entries ← asPyList (← pyGetJ sites "siteEntry" (JVal.arr []))
        let props ← entries.mapM (fun site => pySubscript site "siteUrl")
        pure (JVal.obj [("properties", JVal.arr props)])
      else if tool_name == JVal.str "get_search_analytics" then do
        let args ← asMapping argumentsV
        let site_url := pyGet args "site_url"
        let start_date := pyGetD args "start_date" (JVal.str "2024-01-01")
        let end_date := pyGetD args "end_date" (JVal.str "2024-12-31")
        if pyTruthy site_url then do
          let search_request := JVal.obj
            [ ("startDate", start_date),
              ("endDate", end_date),
              ("dimensions", JVal.arr [JVal.str "query"]),
              ("rowLimit", JVal.num 25) ]
          let response ← svc.searchanalytics_query site_url search_request
          let rows ← pyGetJ response "rows" (JVal.arr [])
          pure (JVal.obj
            [ ("site_url", site_url),
              ("period", JVal.str (pyStr start_date ++ " to " ++ pyStr end_date)),
              ("analytics", rows) ])
        else Except.error "site_url richiesto"
      else if tool_name == JVal.str "get_site_details" then do
        let args ← asMapping argumentsV
        let site_url := pyGet args "site_url"
        if pyTruthy site_url then do
          let site_info ← svc.sites_get site_url
          pure (JVal.obj [("site_details", site_info)])
        else Except.error "site_url richiesto"
      else Except.error ("Tool sconosciuto: " ++ pyStr tool_name)
    pure (toolContent result)

/-- Embeds `MCPServerSSE.handle_tools_call` (lines 137-196): the body above
with the outer `except` that re-raises every failure wrapped in the message
`Errore ... del tool: <original message>`. -/
def handle_tools_call (gsc : Option Service) (gsc_error : String)
    (params : JVal) : Except String JVal :=
  match tcBody gsc gsc_error params with
  | Except.ok r => Except.ok r
  | Except.error e =>
      Except.error ("Errore nell\x27esecuzione del tool: " ++ e)

/-- Embeds `MCPServerSSE.create_mcp_message` (lines 102-114): the `msg_type`
argument is unused by the source; a truthy `error` wins over `result`. -/
def create_mcp_message (msg_type : String) (id : JVal)
    (result : JVal) (error : JVal) : Dict :=
  let message : Dict := [("jsonrpc", JVal.str "2.0"), ("id", id)]
  if pyTruthy error then message ++ [("error", error)]
  else message ++ [("result", result)]

/-- The `try` body of `MCPServerSSE.process_message` (lines 204-213):
route on the method name; unsupported methods raise. -/
def dispatch_outcome (gsc : Option Service) (gsc_error : String)
    (method : JVal) (params : JVal) : Except String JVal :=
  if method == JVal.str "initialize" then Except.ok handle_init
  else if method == JVal.str "tools/list" then Except.ok handle_tools_list
  else if method == JVal.str "tools/call" then
    handle_tools_call gsc gsc_error params
  else Except.error ("Metodo non supportato: " ++ pyStr method)

/-- Embeds `MCPServerSSE.process_message` (lines 198-221): extract method, params
and id, dispatch, and wrap success or failure via `create_mcp_message`. -/
def process_message (gsc : Option Service) (gsc_error : String)
    (message : Dict) : Dict :=
  let method := pyGet message "method"
  let params := pyGetD message "params" (JVal.obj [])
  let msg_id := pyGet message "id"
  match dispatch_outcome gsc gsc_error method params with
  | Except.ok result => create_mcp_message "result" msg_id result JVal.null
  | Except.error e =>
      create_mcp_message "error" msg_id JVal.null
        (JVal.obj [("code", JVal.num (-32000)), ("message", JVal.str e)])

/-- Embeds `sse_message_handler` (`POST /sse`, lines 275-289): forwards to the
dispatcher; if the dispatcher call raised, builds a fallback `-32000`
response of its own.  The dispatcher argument is `Except`-typed to express
that the call site guards against an exception. -/
def sse_message_handler (dispatcher : Dict → Except String Dict)
    (message : Dict) : Dict :=
  match dispatcher message with
  | Except.ok response => response
  | Except.error e =>
      [ ("jsonrpc", JVal.str "2.0"),
        ("id", pyGet message "id"),
        ("error", JVal.obj
          [ ("code", JVal.num (-32000)), ("message", JVal.str e) ]) ]

/-- Endpoint `POST /sse` as deployed: `sse_message_handler` applied to the embedded
`process_message`, which is a total function and hence never raises. -/
def sse_post (gsc : Option Service) (gsc_error : String) (message : Dict) :
    Dict :=
  sse_message_handler (fun m => Except.ok (process_message gsc gsc_error m))
    message

/-- A Python exception as raised inside `handle_mcp_request`: either a plain
`Exception`/`ValueError`, or the FastAPI `HTTPException` raised at line 367.
`HTTPException` subclasses `Exception`, so `except Exception` catches both. -/
inductive PyExc where
  | exc (msg : String) : PyExc
  | httpExc (status : Nat) (detail : String) : PyExc

/-- Python `str(e)` on an exception; Starlette renders an `HTTPException` as
`"<status>: <detail>"`. -/
def pyExcStr : PyExc → String
  | PyExc.exc m => m
  | PyExc.httpExc status detail => toString status ++ ": " ++ detail

/-- Lifts an upstream/attribute failure into a plain Python exception. -/
def liftExc {α : Type} : Except String α → Except PyExc α
  | Except.ok a => Except.ok a
  | Except.error e => Except.error (PyExc.exc e)

/-- The response model `MCPResponse` (lines 33-35): optional result payload
and optional error string, serialized over HTTP 200. -/
structure MCPResp where
  result : JVal
  error : Option String

/-- Outcome of an HTTP endpoint: a 200 body, or an HTTP error status as an
uncaught `HTTPException` would produce. -/
inductive HttpReply where
  | ok (body : MCPResp) : HttpReply
  | abort (status : Nat) (detail : String) : HttpReply

/-- The `try` body of `handle_mcp_request` (lines 323-369): the legacy flat
protocol.  `params` is `Optional[Dict]` (`None` when the field is absent, in
which case `.get` raises an attribute error). -/
def mcp_body (gsc : Option Service) (gsc_error : String) (method : String)
    (params : Option Dict) : Except PyExc JVal :=
  match gsc with
  | none => Except.error (PyExc.exc ("GSC service non disponibile: " ++ gsc_error))
  | some svc =>
    if method == "list_properties" then do
      let sites ← liftExc svc.sites_list
      let entries ← liftExc
        (do asPyList (← pyGetJ sites "siteEntry" (JVal.arr [])))
      let props ← liftExc (entries.mapM (fun site => pySubscript site "siteUrl"))
      pure (JVal.obj [("properties", JVal.arr props)])
    else if method == "get_search_analytics" then
      match params with
      | none => Except.error
          (PyExc.exc "\x27NoneType\x27 object has no attribute \x27get\x27")
      | some p =>
        let site_url := pyGet p "site_url"
        let start_date := pyGetD p "start_date" (JVal.str "2024-01-01")
        let end_date := pyGetD p "end_date" (JVal.str "2024-12-31")
        if pyTruthy site_url then do
          let search_request := JVal.obj
            [ ("startDate", start_date),
              ("endDate", end_date),
              ("dimensions", JVal.arr [JVal.str "query"]),
              ("rowLimit", JVal.num 25) ]
          let response ← liftExc (svc.searchanalytics_query site_url search_request)
          let rows ← liftExc (pyGetJ response "rows" (JVal.arr []))
          pure (JVal.obj
            [ ("site_url", site_url),
              ("period", JVal.str (pyStr start_date ++ " to " ++ pyStr end_date)),
              ("analytics", rows) ])
        else Except.error (PyExc.exc "site_url richiesto")
    else if method == "get_site_details" then
      match params with
      | none => Except.error
          (PyExc.exc "\x27NoneType\x27 object has no attribute \x27get\x27")
      | some p =>
        let site_url := pyGet p "site_url"
        if pyTruthy site_url then do
          let site_info ← liftExc (svc.sites_get site_url)
          pure (JVal.obj [("site_details", site_info)])
        else Except.error (PyExc.exc "site_url richiesto")
    else Except.error (PyExc.httpExc 400 ("Metodo sconosciuto: " ++ method))

/-- Embeds `handle_mcp_request` (`POST /mcp`, lines 320-373): the body above with
the outer `except Exception` that turns EVERY exception — the raised
`HTTPException(400)` included, since it subclasses `Exception` — into a
200 response carrying `MCPResponse(error=str(e))`. -/
def handle_mcp_request (gsc : Option Service) (gsc_error : String)
    (method : String) (params : Option Dict) : HttpReply :=
  match mcp_body gsc gsc_error method params with
  | Except.ok result => HttpReply.ok ⟨result, none⟩
  | Except.error e => HttpReply.ok ⟨JVal.null, some (pyExcStr e)⟩

/-- The `data` payload of the SSE connection frame (line 248). -/
def connFrame (cid : String) : JVal :=
  JVal.obj [("type", JVal.str "connection"), ("id", JVal.str cid)]

/-- The `data` payload of an SSE heartbeat frame (line 256), carrying the
timestamp produced by the clock at the given tick. -/
def heartbeatFrame (ts : String) : JVal :=
  JVal.obj [("type", JVal.str "heartbeat"), ("timestamp", JVal.str ts)]

/-- Python dict assignment `d[k] = v`: update in place, append when absent. -/
def dictSet (d : Dict) (k : String) (v : JVal) : Dict :=
  if (d.lookup k).isSome then
    d.map (fun p => if p.1 == k then (k, v) else p)
  else d ++ [(k, v)]

/-- Python `d.pop(k, None)`: remove the key if present. -/
def dictPop (d : Dict) (k : String) : Dict :=
  d.filter (fun p => p.1 != k)

/-- The `while` loop of `event_generator` (lines 250-257): at tick `i`,
re-check the registry entry, break when the client has disconnected,
otherwise emit one heartbeat and sleep.  `fuel` bounds the number of
iterations modelled; `none` means the loop was still running at the bound. -/
def sseLoop (reg : Dict) (cid : String) (disconnected : Nat → Bool)
    (clock : Nat → String) : Nat → Nat → Option (List JVal)
  | 0, _ => none
  | fuel + 1, i =>
    if pyTruthy (pyGetD reg cid (JVal.bool false)) then
      if disconnected i then some []
      else
        match sseLoop reg cid disconnected clock fuel (i + 1) with
        | none => none
        | some rest => some (heartbeatFrame (clock i) :: rest)
    else some []

/-- Embeds `event_generator` (`GET /sse`, lines 242-262): register the session id,
emit the connection frame, run the heartbeat loop, and in `finally` pop the
session id from the registry.  Returns the emitted frame payloads and the
final registry, or `none` when the loop is still running at the fuel bound
(the `finally` block has not run yet). -/
def event_generator (reg0 : Dict) (cid : String) (disconnected : Nat → Bool)
    (clock : Nat → String) (fuel : Nat) : Option (List JVal × Dict) :=
  let reg1 := dictSet reg0 cid (JVal.bool true)
  match sseLoop reg1 cid disconnected clock fuel 0 with
  | none => none
  | some frames => some (connFrame cid :: frames, dictPop reg1 cid)

/-- The analytics request body that `main.py` builds when no dates are
supplied: the literal defaults of the source, dimension `query`, row cap 25. -/
def defaultSearchBody : JVal := JVal.obj
  [ ("startDate", JVal.str "2024-01-01"),
    ("endDate", JVal.str "2024-12-31"),
    ("dimensions", JVal.arr [JVal.str "query"]),
    ("rowLimit", JVal.num 25) ]

/-- The three analytics rows of the spec scenario: clicks `[1,2,3]` and
impressions `[10,20,30]`. -/
def stubRows : List JVal :=
  [ JVal.obj [ ("keys", JVal.arr [JVal.str "q1"]),
               ("clicks", JVal.num 1), ("impressions", JVal.num 10) ],
    JVal.obj [ ("keys", JVal.arr [JVal.str "q2"]),
               ("clicks", JVal.num 2), ("impressions", JVal.num 20) ],
    JVal.obj [ ("keys", JVal.arr [JVal.str "q3"]),
               ("clicks", JVal.num 3), ("impressions", JVal.num 30) ] ]

/-- Stub adapter whose analytics query returns the three scenario rows. -/
def stubService : Service :=
  ⟨ Except.error "sites.list not stubbed",
    fun _ => Except.error "sites.get not stubbed",
    fun _ _ => Except.ok (JVal.obj [("rows", JVal.arr stubRows)]) ⟩

/-- Stub adapter whose analytics query echoes the request body it was
issued, exposing the dates the server actually used. -/
def probeService : Service :=
  ⟨ Except.error "sites.list not stubbed",
    fun _ => Except.error "sites.get not stubbed",
    fun _ body => Except.ok (JVal.obj [("rows", JVal.arr [body])]) ⟩

/-- Params of a `tools/call` in the spec scenario: `get_search_analytics` on
`https://example.com/` with no dates. -/
def analyticsParams : JVal := JVal.obj
  [ ("name", JVal.str "get_search_analytics"),
    ("arguments", JVal.obj [("site_url", JVal.str "https://example.com/")]) ]

/-- The analytics result object built at lines 169-173. -/
def analyticsResult (site_url : JVal) (period : String) (rows : JVal) : JVal :=
  JVal.obj
    [ ("site_url", site_url),
      ("period", JVal.str period),
      ("analytics", rows) ]

theorem jval_str_beq (a b : String) : (JVal.str a == JVal.str b) = (a == b) := rfl

theorem create_mcp_message_id (t : String) (i r er : JVal) :
    (create_mcp_message t i r er).lookup "id" = some i := by
  cases h : pyTruthy er <;> simp [create_mcp_message, h, List.lookup]

theorem create_mcp_message_one_of (t : String) (i r er : JVal) :
    ((create_mcp_message t i r er).lookup "result").isSome
      = !((create_mcp_message t i r er).lookup "error").isSome := by
  cases h : pyTruthy er <;> simp [create_mcp_message, h, List.lookup]

theorem analytics_default_tools_call (svc : Service) (e u : String) (rows : JVal)
    (hu : u ≠ "")
    (hq : svc.searchanalytics_query (JVal.str u) defaultSearchBody =
      Except.ok (JVal.obj [("rows", rows)])) :
    handle_tools_call (some svc) e (JVal.obj
        [ ("name", JVal.str "get_search_analytics"),
          ("arguments", JVal.obj [("site_url", JVal.str u)]) ]) =
      Except.ok (toolContent (analyticsResult (JVal.str u)
        "2024-01-01 to 2024-12-31" rows)) := by
  have hb : (u != "") = true := by simp [hu]
  have hq' := hq
  simp only [defaultSearchBody] at hq'
  simp [handle_tools_call, tcBody, asMapping, pyGet, pyGetD, List.lookup,
    pyTruthy, hb, pyStr, hq', pyGetJ, analyticsResult, Bind.bind, Except.bind,
    jval_str_beq, pure, Except.pure]

theorem analytics_default_legacy (svc : Service) (e u : String) (rows : JVal)
    (hu : u ≠ "")
    (hq : svc.searchanalytics_query (JVal.str u) defaultSearchBody =
      Except.ok (JVal.obj [("rows", rows)])) :
    handle_mcp_request (some svc) e "get_search_analytics"
        (some [("site_url", JVal.str u)]) =
      HttpReply.ok ⟨analyticsResult (JVal.str u)
        "2024-01-01 to 2024-12-31" rows, none⟩ := by
  have hb : (u != "") = true := by simp [hu]
  have hq' := hq
  simp only [defaultSearchBody] at hq'
  simp [handle_mcp_request, mcp_body, pyGet, pyGetD, List.lookup, pyTruthy,
    hb, pyStr, hq', pyGetJ, asMapping, liftExc, analyticsResult,
    Bind.bind, Except.bind, pure, Except.pure]

/-- Claim C1, corrected: a `tools/call` of `get_search_analytics` with a
known `site_url` and no dates returns ALL rows of the adapter response, in
original order, under `analytics` (with `site_url` and `period`); no top-10
truncation and no `total_clicks`/`total_impressions` aggregates exist in the
result. -/
theorem c1_analytics_returns_all_rows (svc : Service) (e u : String)
    (rows : JVal) (hu : u ≠ "")
    (hq : svc.searchanalytics_query (JVal.str u) defaultSearchBody =
      Except.ok (JVal.obj [("rows", rows)])) :
    handle_tools_call (some svc) e (JVal.obj
        [ ("name", JVal.str "get_search_analytics"),
          ("arguments", JVal.obj [("site_url", JVal.str u)]) ]) =
      Except.ok (toolContent (analyticsResult (JVal.str u)
        "2024-01-01 to 2024-12-31" rows)) :=
  analytics_default_tools_call svc e u rows hu hq

/-- Claim C1, witness: the spec scenario (stub adapter, 3 rows with clicks
`[1,2,3]` and impressions `[10,20,30]`) run through the corrected claim. -/
theorem c1_analytics_returns_all_rows_witness :
    ("https://example.com/" ≠ "" ∧
      stubService.searchanalytics_query (JVal.str "https://example.com/")
        defaultSearchBody =
        Except.ok (JVal.obj [("rows", JVal.arr stubRows)])) ∧
    handle_tools_call (some stubService) "" (JVal.obj
        [ ("name", JVal.str "get_search_analytics"),
          ("arguments", JVal.obj
            [("site_url", JVal.str "https://example.com/")]) ]) =
      Except.ok (toolContent (analyticsResult (JVal.str "https://example.com/")
        "2024-01-01 to 2024-12-31" (JVal.arr stubRows))) :=
  ⟨⟨by decide, rfl⟩,
    c1_analytics_returns_all_rows stubService "" "https://example.com/"
      (JVal.arr stubRows) (by decide) rfl⟩

set_option maxRecDepth 20000 in
/-- Claim C1, counterexample to the claim as stated: on the spec scenario
the result object carries exactly `site_url`, `period` and `analytics` (all
3 rows); it has no `total_clicks`, `total_impressions`, `total_queries` or
`top_queries` field, and the serialized text block never mentions
`total_clicks`. -/
theorem c1_counterexample :
    handle_tools_call (some stubService) "" analyticsParams =
      Except.ok (toolContent (analyticsResult (JVal.str "https://example.com/")
        "2024-01-01 to 2024-12-31" (JVal.arr stubRows))) ∧
    ([ ("site_url", JVal.str "https://example.com/"),
       ("period", JVal.str "2024-01-01 to 2024-12-31"),
       ("analytics", JVal.arr stubRows) ] : Dict).lookup "total_clicks" = none ∧
    ([ ("site_url", JVal.str "https://example.com/"),
       ("period", JVal.str "2024-01-01 to 2024-12-31"),
       ("analytics", JVal.arr stubRows) ] : Dict).lookup "top_queries" = none ∧
    strMentions "total_clicks" (jsonDumps 0 (analyticsResult
      (JVal.str "https://example.com/") "2024-01-01 to 2024-12-31"
      (JVal.arr stubRows))) = false :=
  ⟨rfl, rfl, rfl, by decide⟩

/-- Claim C2, corrected: when `start_date`/`end_date` are omitted, BOTH the
`tools/call` surface and the legacy `POST /mcp` surface issue the analytics
query with the source defaults `2024-01-01`..`2024-12-31` (the body
`defaultSearchBody`), not `2024-05-01`..`2024-06-09`. -/
theorem c2_default_dates (svc : Service) (e u : String) (rows : JVal)
    (hu : u ≠ "")
    (hq : svc.searchanalytics_query (JVal.str u) defaultSearchBody =
      Except.ok (JVal.obj [("rows", rows)])) :
    handle_tools_call (some svc) e (JVal.obj
        [ ("name", JVal.str "get_search_analytics"),
          ("arguments", JVal.obj [("site_url", JVal.str u)]) ]) =
      Except.ok (toolContent (analyticsResult (JVal.str u)
        "2024-01-01 to 2024-12-31" rows)) ∧
    handle_mcp_request (some svc) e "get_search_analytics"
        (some [("site_url", JVal.str u)]) =
      HttpReply.ok ⟨analyticsResult (JVal.str u)
        "2024-01-01 to 2024-12-31" rows, none⟩ :=
  ⟨analytics_default_tools_call svc e u rows hu hq,
    analytics_default_legacy svc e u rows hu hq⟩

/-- Claim C2, witness: the corrected claim run on the stub adapter. -/
theorem c2_default_dates_witness :
    ("https://example.com/" ≠ "" ∧
      stubService.searchanalytics_query (JVal.str "https://example.com/")
        defaultSearchBody =
        Except.ok (JVal.obj [("rows", JVal.arr stubRows)])) ∧
    (handle_tools_call (some stubService) "" (JVal.obj
        [ ("name", JVal.str "get_search_analytics"),
          ("arguments", JVal.obj
            [("site_url", JVal.str "https://example.com/")]) ]) =
      Except.ok (toolContent (analyticsResult (JVal.str "https://example.com/")
        "2024-01-01 to 2024-12-31" (JVal.arr stubRows))) ∧
    handle_mcp_request (some stubService) "" "get_search_analytics"
        (some [("site_url", JVal.str "https://example.com/")]) =
      HttpReply.ok ⟨analyticsResult (JVal.str "https://example.com/")
        "2024-01-01 to 2024-12-31" (JVal.arr stubRows), none⟩) :=
  ⟨⟨by decide, rfl⟩,
    c2_default_dates stubService "" "https://example.com/"
      (JVal.arr stubRows) (by decide) rfl⟩

/-- Claim C2, counterexample to the claim as stated: an adapter that echoes
the request body it receives shows the query was issued with
`startDate=2024-01-01`, `endDate=2024-12-31` — not the claimed
`2024-05-01`..`2024-06-09`. -/
theorem c2_counterexample :
    handle_tools_call (some probeService) "" analyticsParams =
      Except.ok (toolContent (analyticsResult (JVal.str "https://example.com/")
        "2024-01-01 to 2024-12-31" (JVal.arr [defaultSearchBody]))) ∧
    defaultSearchBody ≠ JVal.obj
      [ ("startDate", JVal.str "2024-05-01"),
        ("endDate", JVal.str "2024-06-09"),
        ("dimensions", JVal.arr [JVal.str "query"]),
        ("rowLimit", JVal.num 25) ] :=
  ⟨rfl, by simp [defaultSearchBody]⟩

/-- Claim C3, corrected: for every tool name outside the three known tools,
`handle_tools_call` RAISES (its outer handler re-raises
the wrapped message `Tool sconosciuto: <name>`), and
`process_message` converts that exception into a JSON-RPC `-32000` error
response; no `{success: false, error, tool}` envelope is ever produced. -/
theorem c3_unknown_tool_raises (svc : Service) (e nm : String) (args : Dict)
    (h1 : nm ≠ "list_properties") (h2 : nm ≠ "get_search_analytics")
    (h3 : nm ≠ "get_site_details") :
    handle_tools_call (some svc) e (JVal.obj
        [("name", JVal.str nm), ("arguments", JVal.obj args)]) =
      Except.error
        ("Errore nell\x27esecuzione del tool: Tool sconosciuto: " ++ nm) ∧
    process_message (some svc) e
        [ ("method", JVal.str "tools/call"),
          ("params", JVal.obj
            [("name", JVal.str nm), ("arguments", JVal.obj args)]) ] =
      [ ("jsonrpc", JVal.str "2.0"), ("id", JVal.null),
        ("error", JVal.obj
          [ ("code", JVal.num (-32000)),
            ("message", JVal.str
              ("Errore nell\x27esecuzione del tool: Tool sconosciuto: " ++ nm)) ]) ] := by
  have b1 : (nm == "list_properties") = false := beq_eq_false_iff_ne.mpr h1
  have b2 : (nm == "get_search_analytics") = false := beq_eq_false_iff_ne.mpr h2
  have b3 : (nm == "get_site_details") = false := beq_eq_false_iff_ne.mpr h3
  have hcall : handle_tools_call (some svc) e (JVal.obj
      [("name", JVal.str nm), ("arguments", JVal.obj args)]) =
      Except.error
        ("Errore nell\x27esecuzione del tool: Tool sconosciuto: " ++ nm) := by
    simp [handle_tools_call, tcBody, asMapping, pyGet, pyGetD, List.lookup,
      jval_str_beq, b1, b2, b3, pyStr, Bind.bind, Except.bind,
      ← String.append_assoc]
  refine ⟨hcall, ?_⟩
  simp [process_message, dispatch_outcome, pyGet, pyGetD, List.lookup,
    jval_str_beq, hcall, create_mcp_message, pyTruthy]

/-- Claim C3, witness: the corrected claim at the unknown tool `x_tool`. -/
theorem c3_unknown_tool_raises_witness :
    ("x_tool" ≠ "list_properties" ∧ "x_tool" ≠ "get_search_analytics" ∧
      "x_tool" ≠ "get_site_details") ∧
    (handle_tools_call (some stubService) "" (JVal.obj
        [("name", JVal.str "x_tool"), ("arguments", JVal.obj [])]) =
      Except.error
        ("Errore nell\x27esecuzione del tool: Tool sconosciuto: " ++ "x_tool") ∧
    process_message (some stubService) ""
        [ ("method", JVal.str "tools/call"),
          ("params", JVal.obj
            [("name", JVal.str "x_tool"), ("arguments", JVal.obj [])]) ] =
      [ ("jsonrpc", JVal.str "2.0"), ("id", JVal.null),
        ("error", JVal.obj
          [ ("code", JVal.num (-32000)),
            ("message", JVal.str
              ("Errore nell\x27esecuzione del tool: Tool sconosciuto: " ++ "x_tool")) ]) ]) :=
  ⟨⟨by decide, by decide, by decide⟩,
    c3_unknown_tool_raises stubService "" "x_tool" []
      (by decide) (by decide) (by decide)⟩

/-- Claim C3, counterexample to the claim as stated: on the unknown tool
`bogus` the executor does not return any envelope — it fails with the
wrapped exception, i.e. the call is not `ok` at all. -/
theorem c3_counterexample :
    handle_tools_call (some stubService) ""
        (JVal.obj [("name", JVal.str "bogus"), ("arguments", JVal.obj [])]) =
      Except.error "Errore nell\x27esecuzione del tool: Tool sconosciuto: bogus" ∧
    (handle_tools_call (some stubService) ""
        (JVal.obj [("name", JVal.str "bogus"), ("arguments", JVal.obj [])])).isOk
      = false :=
  ⟨rfl, rfl⟩

/-- Claim C4, corrected: a dispatched message whose method is none of
`initialize`, `tools/list`, `tools/call` gets the error object
`{code: -32000, message: "Metodo non supportato: <method>"}` — code
`-32000`, not `-32601`, and the `Metodo non supportato` text. -/
theorem c4_unknown_method_error (gsc : Option Service) (e m : String)
    (idv : JVal)
    (h1 : m ≠ "initialize") (h2 : m ≠ "tools/list") (h3 : m ≠ "tools/call") :
    process_message gsc e [("method", JVal.str m), ("id", idv)] =
      [ ("jsonrpc", JVal.str "2.0"), ("id", idv),
        ("error", JVal.obj
          [ ("code", JVal.num (-32000)),
            ("message", JVal.str ("Metodo non supportato: " ++ m)) ]) ] := by
  have b1 : (m == "initialize") = false := beq_eq_false_iff_ne.mpr h1
  have b2 : (m == "tools/list") = false := beq_eq_false_iff_ne.mpr h2
  have b3 : (m == "tools/call") = false := beq_eq_false_iff_ne.mpr h3
  simp [process_message, dispatch_outcome, pyGet, pyGetD, List.lookup,
    jval_str_beq, b1, b2, b3, pyStr, create_mcp_message, pyTruthy]

/-- Claim C4, witness: the corrected claim at method `resources/read`. -/
theorem c4_unknown_method_error_witness :
    ("resources/read" ≠ "initialize" ∧ "resources/read" ≠ "tools/list" ∧
      "resources/read" ≠ "tools/call") ∧
    process_message none "boom"
        [("method", JVal.str "resources/read"), ("id", JVal.str "5")] =
      [ ("jsonrpc", JVal.str "2.0"), ("id", JVal.str "5"),
        ("error", JVal.obj
          [ ("code", JVal.num (-32000)),
            ("message", JVal.str ("Metodo non supportato: " ++ "resources/read")) ]) ] :=
  ⟨⟨by decide, by decide, by decide⟩,
    c4_unknown_method_error none "boom" "resources/read" (JVal.str "5")
      (by decide) (by decide) (by decide)⟩

/-- Claim C4, counterexample to the claim as stated: the unknown method
`resources/list` yields code `-32000` with message
`Metodo non supportato: ...`, not the claimed `-32601`
`Metodo non trovato: ...` object. -/
theorem c4_counterexample :
    process_message none ""
        [("method", JVal.str "resources/list"), ("id", JVal.str "9")] =
      [ ("jsonrpc", JVal.str "2.0"), ("id", JVal.str "9"),
        ("error", JVal.obj
          [ ("code", JVal.num (-32000)),
            ("message", JVal.str "Metodo non supportato: resources/list") ]) ] ∧
    (process_message none ""
        [("method", JVal.str "resources/list"), ("id", JVal.str "9")]).lookup
        "error" ≠
      some (JVal.obj
        [ ("code", JVal.num (-32601)),
          ("message", JVal.str "Metodo non trovato: resources/list") ]) :=
  ⟨rfl, by simp [process_message, dispatch_outcome, pyGet, pyGetD,
    List.lookup, create_mcp_message, pyTruthy, pyStr, jval_str_beq]⟩

/-- Claim C5, code bug: the source raises `HTTPException(400)` for an
unknown legacy method (line 367), clearly intending an HTTP 400, but its own
`except Exception` (line 371) catches it — `HTTPException` subclasses
`Exception` — and the endpoint answers HTTP 200 with
`MCPResponse(error="400: Metodo sconosciuto: ...")` instead. -/
theorem c5_legacy_unknown_method_http200 :
    mcp_body (some stubService) "" "bogus_method" none =
      Except.error (PyExc.httpExc 400 "Metodo sconosciuto: bogus_method") ∧
    handle_mcp_request (some stubService) "" "bogus_method" none =
      HttpReply.ok ⟨JVal.null, some "400: Metodo sconosciuto: bogus_method"⟩ :=
  ⟨rfl, rfl⟩

/-- Claim C6, corrected: the response id always equals the inbound id —
but an absent inbound id is echoed as `None`/JSON `null`, not replaced by
the default `"1"`. -/
theorem c6_id_echoed (gsc : Option Service) (e : String) (message : Dict) :
    (process_message gsc e message).lookup "id" = some (pyGet message "id") := by
  simp only [process_message]
  cases dispatch_outcome gsc e (pyGet message "method")
      (pyGetD message "params" (JVal.obj [])) <;>
    apply create_mcp_message_id

/-- Claim C6, counterexample to the claim as stated: a message without an
`id` field gets a response whose id is `null`, which is not `"1"`. -/
theorem c6_counterexample :
    (process_message none "" [("method", JVal.str "initialize")]).lookup "id" =
      some JVal.null ∧ some JVal.null ≠ some (JVal.str "1") :=
  ⟨rfl, by simp⟩

/-- Claim C8, confirmed: every response built by `process_message` carries
exactly one of the `result` and `error` fields — `create_mcp_message` adds
`error` exactly when the error value is truthy, and the dispatcher passes
either a truthy error object or none at all. -/
theorem c8_exactly_one_result_or_error (gsc : Option Service) (e : String)
    (message : Dict) :
    ((process_message gsc e message).lookup "result").isSome
      = !((process_message gsc e message).lookup "error").isSome := by
  simp only [process_message]
  cases dispatch_outcome gsc e (pyGet message "method")
      (pyGetD message "params" (JVal.obj [])) <;>
    apply create_mcp_message_one_of

/-- Claim C10, confirmed: the embedded `process_message` is a total
function, so the `POST /sse` handler always returns its result and the
handler-side fallback `-32000` branch is unreachable. -/
theorem c10_dispatcher_total (gsc : Option Service) (e : String)
    (message : Dict) :
    sse_post gsc e message = process_message gsc e message := rfl

theorem sseLoop_heartbeats (reg : Dict) (cid : String) (disc : Nat → Bool)
    (clock : Nat → String) :
    ∀ fuel i frames, sseLoop reg cid disc clock fuel i = some frames →
      ∀ f ∈ frames, ∃ j, f = heartbeatFrame (clock j) := by
  intro fuel
  induction fuel with
  | zero =>
    intro i frames h
    simp [sseLoop] at h
  | succ n ih =>
    intro i frames h
    rw [sseLoop] at h
    split at h
    · split at h
      · injection h with h'
        subst h'
        intro f hf
        simp at hf
      · split at h
        · exact absurd h (by simp)
        · rename_i rest heq
          injection h with h'
          subst h'
          intro f hf
          rcases List.mem_cons.mp hf with rfl | hm
          · exact ⟨i, rfl⟩
          · exact ih (i + 1) rest heq f hm
    · injection h with h'
      subst h'
      intro f hf
      simp at hf

theorem lookup_none_filter (d : Dict) (k : String) (h : d.lookup k = none) :
    d.filter (fun p => p.1 != k) = d := by
  induction d with
  | nil => rfl
  | cons a as ih =>
    obtain ⟨k1, v1⟩ := a
    rw [List.lookup] at h
    split at h
    · simp at h
    · rename_i hbeq
      have hkk : k1 ≠ k := Ne.symm (beq_eq_false_iff_ne.mp hbeq)
      simp [List.filter_cons, hkk, ih h]

theorem event_generator_final_registry (reg0 : Dict) (cid : String)
    (disc : Nat → Bool) (clock : Nat → String) (fuel : Nat)
    (frames : List JVal) (regF : Dict)
    (hfresh : reg0.lookup cid = none)
    (hrun : event_generator reg0 cid disc clock fuel = some (frames, regF)) :
    regF = reg0 := by
  simp only [event_generator, dictSet, hfresh, Option.isSome_none,
    Bool.false_eq_true, if_false] at hrun
  split at hrun
  · simp at hrun
  · rename_i fr heq
    rw [Option.some.injEq, Prod.mk.injEq] at hrun
    obtain ⟨h1, h2⟩ := hrun
    subst h2
    rw [dictPop, List.filter_append, lookup_none_filter reg0 cid hfresh]
    simp

/-- Claim C9, confirmed: when the SSE generator tears down (here: its run
completes within the modelled fuel bound), the `finally` block pops the
session id, so for a fresh session id the registry returns exactly to its
pre-connection value — same entries, same count — and the emitted trace is
the finite frame list returned, with nothing after it. -/
theorem c9_registry_restored (reg0 : Dict) (cid : String)
    (disc : Nat → Bool) (clock : Nat → String) (fuel : Nat)
    (frames : List JVal) (regF : Dict)
    (hfresh : reg0.lookup cid = none)
    (hrun : event_generator reg0 cid disc clock fuel = some (frames, regF)) :
    regF = reg0 ∧ regF.length = reg0.length := by
  have h := event_generator_final_registry reg0 cid disc clock fuel frames
    regF hfresh hrun
  exact ⟨h, by rw [h]⟩

/-- Claim C9, witness: a client that disconnects at the first check leaves
an empty registry equal to the initial empty registry. -/
theorem c9_registry_restored_witness :
    (([] : Dict).lookup "c1" = none ∧
      event_generator [] "c1" (fun _ => true) (fun _ => "t") 1 =
        some ([connFrame "c1"], [])) ∧
    (([] : Dict) = [] ∧ ([] : Dict).length = ([] : Dict).length) :=
  ⟨⟨rfl, rfl⟩,
    c9_registry_restored [] "c1" (fun _ => true) (fun _ => "t") 1
      [connFrame "c1"] [] rfl rfl⟩

/-- Claim C7, corrected: the first frame of every completed SSE run is the
connection frame `{type: "connection", id: <session id>}` — with no
`status` field — and every later frame is a heartbeat; the stream emits no
server-info or tool-list frames at all. -/
theorem c7_connection_then_heartbeats (reg0 : Dict) (cid : String)
    (disc : Nat → Bool) (clock : Nat → String) (fuel : Nat)
    (frames : List JVal) (regF : Dict)
    (hrun : event_generator reg0 cid disc clock fuel = some (frames, regF)) :
    frames.head? = some (connFrame cid) ∧
    ∀ f ∈ frames.tail, ∃ j, f = heartbeatFrame (clock j) := by
  simp only [event_generator] at hrun
  split at hrun
  · simp at hrun
  · rename_i fr heq
    rw [Option.some.injEq, Prod.mk.injEq] at hrun
    obtain ⟨h1, h2⟩ := hrun
    subst h1
    exact ⟨rfl, fun f hf =>
      sseLoop_heartbeats _ cid disc clock fuel 0 fr heq f hf⟩

/-- Claim C7, witness: a run that disconnects immediately emits exactly the
connection frame. -/
theorem c7_connection_then_heartbeats_witness :
    (event_generator [] "s2" (fun _ => true) (fun _ => "tick") 1 =
      some ([connFrame "s2"], [])) ∧
    (([connFrame "s2"] : List JVal).head? = some (connFrame "s2") ∧
      ∀ f ∈ ([connFrame "s2"] : List JVal).tail, ∃ j,
        f = heartbeatFrame ((fun _ : Nat => "tick") j)) :=
  ⟨rfl,
    c7_connection_then_heartbeats [] "s2" (fun _ => true) (fun _ => "tick") 1
      [connFrame "s2"] [] rfl⟩

/-- Claim C7, counterexample to the claim as stated: with a client that
disconnects at the second check, the stream is exactly the connection frame
(which carries `type` and `id` but NO `status` field) followed directly by a
heartbeat — no server-info frame and no tool-list frame exist. -/
theorem c7_counterexample :
    event_generator [] "s1" (fun n => n != 0) (fun _ => "t0") 2 =
      some ([ JVal.obj [("type", JVal.str "connection"), ("id", JVal.str "s1")],
              JVal.obj [("type", JVal.str "heartbeat"), ("timestamp", JVal.str "t0")] ],
            []) ∧
    ([ ("type", JVal.str "connection"),
       ("id", JVal.str "s1") ] : Dict).lookup "status" = none :=
  ⟨rfl, rfl⟩
